import Mathlib

/-!
Shallow embedding of the chat server's session/auth core and HTTP dispatch
(src/server.ts, with the message-insert defaulting from src/db.ts).

Conventions of the embedding:
* `Date.now()` instants are explicit `Int` parameters (epoch milliseconds).
* The process-wide `tokenStore` `Map<string, {userId, expiry}>` is an
  association list with `Map`-faithful `get`/`set`/`delete` operations,
  threaded explicitly through the stateful functions.
* A request's already-parsed JSON body is an `Option JsonBody` (`none`
  models `await req.json()` throwing); JavaScript truthiness of a possibly
  absent string field (`!x` is true for `undefined` and `""`) is `falsyStr`.
* The external relational store and `decodeURIComponent` (out-of-scope
  collaborators) are an oracle record `Db`; the row-building logic of
  `addMessage` in src/db.ts, which is repository code, is embedded as
  `addMessage : MessageInput → MessageRow`.
* `crypto.randomUUID()` is modelled by passing the fresh token as the
  `freshToken` argument of `handler`.
-/

/-- Value stored per token in the session registry:
`{ userId: number; expiry: number }`. -/
structure TokenData where
  userId : Int
  expiry : Int
deriving DecidableEq, Repr

/-- The in-memory token store, `Map<string, { userId; expiry }>`. -/
abbrev TokenStore := List (String × TokenData)

/-- `tokenStore.get(t)`: first binding of the key, if any. -/
def storeGet (s : TokenStore) (t : String) : Option TokenData :=
  match s with
  | [] => none
  | (k, d) :: rest => if k = t then some d else storeGet rest t

/-- `tokenStore.delete(t)`: remove the binding of the key. -/
def storeDelete (s : TokenStore) (t : String) : TokenStore :=
  s.filter (fun p => !(decide (p.1 = t)))

/-- `tokenStore.set(t, d)`: bind the key to the value. -/
def storeSet (s : TokenStore) (t : String) (d : TokenData) : TokenStore :=
  (t, d) :: storeDelete s t

/-- JavaScript `s.startsWith(p)` on character sequences. -/
def strStartsWith (s p : String) : Bool :=
  p.data.isPrefixOf s.data

/-- Drop the first `n` characters of a string; with the `Bearer `-scheme
guard established, `authHeader.replace("Bearer ", "")` replaces the first
occurrence, which is the 7-character leading `Bearer `, so it equals
dropping those 7 characters. -/
def dropChars (s : String) (n : Nat) : String :=
  String.mk (s.data.drop n)

/-- The stored-message row `addMessage` sends to the external store:
`(body, user_id, attachments, in_reply_to, channel)` after defaulting. -/
structure MessageRow where
  body : Option String
  user_id : Int
  attachments : List String
  in_reply_to : Option Int
  channel : String
deriving DecidableEq, Repr

/-- Body of a response as the handler shapes it: a plain-text string, or
one of the JSON payload shapes the routes serialize. -/
inductive RespBody where
  | text (s : String)
  | jsonLogin (token : String) (userId expiry : Int)
  | jsonData (payload : String)
  | jsonMessage (row : MessageRow)
  | jsonWelcome
  | empty
deriving DecidableEq, Repr

/-- A response: status, body, and the value of the
`Access-Control-Allow-Origin` header when one is set. -/
structure Response where
  status : Nat
  body : RespBody
  allowOrigin : Option String
deriving DecidableEq, Repr

/-- `createResponse` from src/server.ts: every response built through it
carries the permissive `Access-Control-Allow-Origin: *` header. -/
def createResponse (b : RespBody) (status : Nat) : Response :=
  { status := status, body := b, allowOrigin := some "*" }

/-- Result of `verifyToken`: `number | Response`. -/
inductive AuthResult where
  | ok (userId : Int)
  | reject (resp : Response)
deriving DecidableEq, Repr

/-- `verifyToken` from src/server.ts (the Session Registry `resolve` plus
the Access-Control Gate): reads the `Authorization` header, requires the
`Bearer ` scheme, looks the token up, deletes it and rejects 401 when
`expiry < now`, otherwise returns the stored user id. -/
def verifyToken (authHeader : Option String) (store : TokenStore) (now : Int) :
    AuthResult × TokenStore :=
  match authHeader with
  | none =>
    (.reject (createResponse (.text "Missing or invalid Authorization header") 401), store)
  | some h =>
    if strStartsWith h "Bearer " then
      let token := dropChars h 7
      match storeGet store token with
      | none => (.reject (createResponse (.text "Invalid token") 401), store)
      | some d =>
        if d.expiry < now then
          (.reject (createResponse (.text "Token expired") 401), storeDelete store token)
        else
          (.ok d.userId, store)
    else
      (.reject (createResponse (.text "Missing or invalid Authorization header") 401), store)

/-- The periodic `setInterval` sweep from src/server.ts: one pass deleting
every entry with `expiry < now`. -/
def sweep (store : TokenStore) (now : Int) : TokenStore :=
  store.filter (fun p => !(decide (p.2.expiry < now)))

/-- The fields of a parsed JSON request body the routes look at; `none`
models an absent field. -/
structure JsonBody where
  name : Option String
  password : Option String
  profile_picture_url : Option String
  body : Option String
  user_id : Option Int
  channel : Option String
  attachments : Option (List String)
  in_reply_to : Option Int
deriving DecidableEq, Repr

/-- An incoming request as the handler observes it: method, pathname of
the URL, `Authorization` header, and the outcome of `await req.json()`
(`none` = the parse threw, with `jsonErrMsg` the thrown error's message). -/
structure Request where
  method : String
  path : String
  authHeader : Option String
  jsonBody : Option JsonBody
  jsonErrMsg : String
deriving DecidableEq, Repr

/-- JavaScript truthiness test `!x` for a possibly absent string field:
true for `undefined` and for `""`. -/
def falsyStr : Option String → Bool
  | none => true
  | some s => decide (s = "")

/-- `(error as Error).message || "Server error"`. -/
def errOr (msg dflt : String) : String :=
  if msg = "" then dflt else msg

/-- Input to `addMessage`: the spread `{ ...body, user_id: userId }` the
`POST /messages` route passes, restricted to the columns the insert uses. -/
structure MessageInput where
  body : Option String
  user_id : Int
  attachments : Option (List String)
  in_reply_to : Option Int
  channel : Option String
deriving DecidableEq, Repr

/-- The row-building part of `addMessage` from src/db.ts: the values sent
to the insert are `message.body`, `message.user_id`,
`message.attachments || []`, `message.in_reply_to || null`,
`message.channel || 'general'` (JavaScript `||`, so `0` and `""` also
fall to the default). -/
def addMessage (m : MessageInput) : MessageRow :=
  { body := m.body
    user_id := m.user_id
    attachments :=
      match m.attachments with
      | none => []
      | some l => l
    in_reply_to :=
      match m.in_reply_to with
      | none => none
      | some n => if n = 0 then none else some n
    channel :=
      match m.channel with
      | none => "general"
      | some c => if c = "" then "general" else c }

/-- The spread `{ ...body, user_id: userId }` that `POST /messages`
passes to `addMessage`: every insert-relevant field from the request body,
with `user_id` overwritten by the verified caller's id. -/
def spreadInput (b : JsonBody) (uid : Int) : MessageInput :=
  { body := b.body
    user_id := uid
    attachments := b.attachments
    in_reply_to := b.in_reply_to
    channel := b.channel }

/-- JavaScript `path.split("/")` for a single-character separator, as a
structural recursion over the character sequence. -/
def splitOnChar (l : List Char) (sep : Char) : List (List Char) :=
  match l with
  | [] => [[]]
  | c :: rest =>
    let r := splitOnChar rest sep
    if c = sep then [] :: r
    else
      match r with
      | [] => [[c]]
      | h :: t => (c :: h) :: t

/-- JavaScript `s.split(sep)` for a one-character separator. -/
def jsSplit (s : String) (sep : Char) : List String :=
  (splitOnChar s.data sep).map String.mk

/-- Oracle for the external collaborators: the relational store's
operations (errors model thrown query failures, carrying the thrown
message) and `decodeURIComponent`. -/
structure Db where
  validateUser : String → String → Option Int
  getUsers : Except String String
  updateUser : Int → String → String → Except String String
  getMessages : Except String String
  getMessagesByChannel : String → Except String String
  insertMessage : MessageRow → Except String Unit
  getChannels : Except String String
  decodeURIComponent : String → String

/-- The external-store call a handled request performed, if any. -/
inductive Effect where
  | none
  | login (name password : String)
  | listUsers
  | userUpdate (id : Int) (name pic : String)
  | listMessages
  | channelQuery (channel : String)
  | insertMessage (row : MessageRow)
  | listChannels
deriving DecidableEq, Repr

/-- What one `handler` call produced: the response, the token store it
leaves behind, and the external-store call it made. -/
structure HandlerResult where
  response : Response
  store : TokenStore
  effect : Effect
deriving DecidableEq, Repr

/-- `handler` from src/server.ts: the ordered route dispatch. `now` is
`Date.now()` during the request, `freshToken` the `crypto.randomUUID()`
drawn if the login route issues a token. -/
def handler (req : Request) (store : TokenStore) (now : Int) (db : Db)
    (freshToken : String) : HandlerResult :=
  if req.method = "OPTIONS" then
    { response := { status := 204, body := .empty, allowOrigin := some "*" },
      store := store, effect := .none }
  else if req.method = "POST" ∧ req.path = "/auth/login" then
    match req.jsonBody with
    | none =>
      { response := createResponse (.text (errOr req.jsonErrMsg "Server error")) 500,
        store := store, effect := .none }
    | some b =>
      if falsyStr b.name || falsyStr b.password then
        { response := createResponse (.text "Missing name or password") 400,
          store := store, effect := .none }
      else
        let nm := b.name.getD ""
        let pw := b.password.getD ""
        match db.validateUser nm pw with
        | none =>
          { response := createResponse (.text "Invalid credentials") 401,
            store := store, effect := .login nm pw }
        | some uid =>
          let expiry := now + 10 * 60 * 1000
          { response := createResponse (.jsonLogin freshToken uid expiry) 200,
            store := storeSet store freshToken { userId := uid, expiry := expiry },
            effect := .login nm pw }
  else if req.method = "GET" ∧ req.path = "/users" then
    match db.getUsers with
    | .ok payload =>
      { response := createResponse (.jsonData payload) 200, store := store,
        effect := .listUsers }
    | .error _ =>
      { response := createResponse (.text "Server error retrieving users") 500,
        store := store, effect := .listUsers }
  else if req.method = "POST" ∧ req.path = "/users" then
    match verifyToken req.authHeader store now with
    | (.reject resp, store2) => { response := resp, store := store2, effect := .none }
    | (.ok uid, store2) =>
      match req.jsonBody with
      | none =>
        { response := createResponse
            (.text (if req.jsonErrMsg = "User not found" then "User not found" else "Server error"))
            (if req.jsonErrMsg = "User not found" then 404 else 500),
          store := store2, effect := .none }
      | some b =>
        if falsyStr b.name || falsyStr b.profile_picture_url then
          { response := createResponse (.text "Missing name or profile_picture_url") 400,
            store := store2, effect := .none }
        else
          let nm := b.name.getD ""
          let pic := b.profile_picture_url.getD ""
          match db.updateUser uid nm pic with
          | .ok payload =>
            { response := createResponse (.jsonData payload) 200, store := store2,
              effect := .userUpdate uid nm pic }
          | .error m =>
            { response := createResponse
                (.text (if m = "User not found" then "User not found" else "Server error"))
                (if m = "User not found" then 404 else 500),
              store := store2, effect := .userUpdate uid nm pic }
  else if req.method = "GET" ∧ req.path = "/messages" then
    match db.getMessages with
    | .ok payload =>
      { response := createResponse (.jsonData payload) 200, store := store,
        effect := .listMessages }
    | .error _ =>
      { response := createResponse (.text "Server error retrieving messages") 500,
        store := store, effect := .listMessages }
  else if req.method = "GET" ∧ strStartsWith req.path "/messages/channel/" then
    let channel := (jsSplit req.path '/').getD 3 ""
    if channel = "" then
      { response := createResponse (.text "Channel not specified") 400,
        store := store, effect := .none }
    else
      let dec := db.decodeURIComponent channel
      match db.getMessagesByChannel dec with
      | .ok payload =>
        { response := createResponse (.jsonData payload) 200, store := store,
          effect := .channelQuery dec }
      | .error _ =>
        { response := createResponse (.text "Server error retrieving channel messages") 500,
          store := store, effect := .channelQuery dec }
  else if req.method = "POST" ∧ req.path = "/messages" then
    match verifyToken req.authHeader store now with
    | (.reject resp, store2) => { response := resp, store := store2, effect := .none }
    | (.ok uid, store2) =>
      match req.jsonBody with
      | none =>
        { response := createResponse (.text (errOr req.jsonErrMsg "Server error")) 500,
          store := store2, effect := .none }
      | some b =>
        if falsyStr b.body then
          { response := createResponse (.text "Missing body") 400,
            store := store2, effect := .none }
        else
          let row := addMessage (spreadInput b uid)
          match db.insertMessage row with
          | .ok _ =>
            { response := createResponse (.jsonMessage row) 201, store := store2,
              effect := .insertMessage row }
          | .error m =>
            { response := createResponse (.text (errOr m "Server error")) 500,
              store := store2, effect := .insertMessage row }
  else if req.method = "GET" ∧ req.path = "/channels" then
    match db.getChannels with
    | .ok payload =>
      { response := createResponse (.jsonData payload) 200, store := store,
        effect := .listChannels }
    | .error _ =>
      { response := createResponse (.text "Server error retrieving channels") 500,
        store := store, effect := .listChannels }
  else if req.method = "GET" ∧ req.path = "/" then
    { response := createResponse .jsonWelcome 200, store := store, effect := .none }
  else
    { response := createResponse (.text "Not found") 404, store := store, effect := .none }

/-- The dispatch table of `handler` as a predicate on method and path:
true exactly when some route's guard fires. -/
def routeMatches (method path : String) : Bool :=
  (decide (method = "OPTIONS")) ||
  (decide (method = "POST") && decide (path = "/auth/login")) ||
  (decide (method = "GET") && decide (path = "/users")) ||
  (decide (method = "POST") && decide (path = "/users")) ||
  (decide (method = "GET") && decide (path = "/messages")) ||
  (decide (method = "GET") && strStartsWith path "/messages/channel/") ||
  (decide (method = "POST") && decide (path = "/messages")) ||
  (decide (method = "GET") && decide (path = "/channels")) ||
  (decide (method = "GET") && decide (path = "/"))

/-- A request body with every field absent. -/
def emptyBody : JsonBody :=
  { name := none, password := none, profile_picture_url := none, body := none,
    user_id := none, channel := none, attachments := none, in_reply_to := none }

/-- Build a request from method, path, `Authorization` header and parsed
body, with an empty parse-error message. -/
def mkReq (m p : String) (ah : Option String) (jb : Option JsonBody) : Request :=
  { method := m, path := p, authHeader := ah, jsonBody := jb, jsonErrMsg := "" }

/-- A login request for user `alice` with password `pw`. -/
def loginReq : Request :=
  mkReq "POST" "/auth/login" none
    (some { emptyBody with name := some "alice", password := some "pw" })

/-- An external-store oracle where every operation succeeds, user `alice`
with password `pw` has id 1, and percent-decoding is the identity. -/
def dbStub : Db :=
  { validateUser := fun n p => if n = "alice" ∧ p = "pw" then some 1 else none
    getUsers := .ok "[]"
    updateUser := fun _ _ _ => .ok "{}"
    getMessages := .ok "[]"
    getMessagesByChannel := fun _ => .ok "[]"
    insertMessage := fun _ => .ok ()
    getChannels := .ok "[]"
    decodeURIComponent := fun s => s }

theorem isPrefixOf_append (l₁ l₂ : List Char) : l₁.isPrefixOf (l₁ ++ l₂) = true := by
  induction l₁ with
  | nil => simp [List.isPrefixOf]
  | cons a t ih => simp [List.isPrefixOf, ih]

theorem bearer_starts (tok : String) :
    strStartsWith ("Bearer " ++ tok) "Bearer " = true := by
  unfold strStartsWith
  rw [String.data_append]
  exact isPrefixOf_append _ _

theorem bearer_drop (tok : String) : dropChars ("Bearer " ++ tok) 7 = tok := by
  unfold dropChars
  rw [String.data_append]
  have h : ("Bearer ".data).length = 7 := by decide
  rw [← h, List.drop_left]

theorem storeGet_delete_self (s : TokenStore) (t : String) :
    storeGet (storeDelete s t) t = none := by
  induction s with
  | nil => rfl
  | cons p rest ih =>
    obtain ⟨k, d⟩ := p
    by_cases h : k = t
    · simpa [storeDelete, List.filter, h] using ih
    · simpa [storeDelete, List.filter, h, storeGet] using ih

/-- Core of `verifyToken` on a stored, unexpired token: the user id comes
back and the store is returned untouched. -/
theorem verify_valid (store : TokenStore) (tok : String) (uid e now : Int)
    (hget : storeGet store tok = some { userId := uid, expiry := e })
    (h : ¬ e < now) :
    verifyToken (some ("Bearer " ++ tok)) store now = (.ok uid, store) := by
  simp only [verifyToken, bearer_starts, if_true, bearer_drop, hget, h, if_false]

/-- Core of `verifyToken` on a stored token whose expiry is strictly
past: the 401 `Token expired` rejection, with the entry deleted. -/
theorem verify_expired (store : TokenStore) (tok : String) (uid e now : Int)
    (hget : storeGet store tok = some { userId := uid, expiry := e })
    (h : e < now) :
    verifyToken (some ("Bearer " ++ tok)) store now =
      (.reject (createResponse (.text "Token expired") 401), storeDelete store tok) := by
  simp only [verifyToken, bearer_starts, if_true, bearer_drop, hget, h, if_true]

/-- Core of `verifyToken` on a token with no entry: the 401
`Invalid token` rejection, store untouched. -/
theorem verify_notFound (store : TokenStore) (tok : String) (now : Int)
    (hget : storeGet store tok = none) :
    verifyToken (some ("Bearer " ++ tok)) store now =
      (.reject (createResponse (.text "Invalid token") 401), store) := by
  simp only [verifyToken, bearer_starts, if_true, bearer_drop, hget]

/-- C1 counterexample: a token issued by a successful login is stored
with expiry `now + 600000`; at the instant exactly equal to that stored
expiry, `verifyToken` still returns the user id rather than the
`Token expired` rejection, so the claimed `Expired at any instant at or
after the stored expiry` is false at `instant = expiry`. -/
theorem c1_counterexample :
    (handler loginReq [] 0 dbStub "tk").store =
      [("tk", { userId := 1, expiry := 600000 })] ∧
    verifyToken (some "Bearer tk") [("tk", { userId := 1, expiry := 600000 })] 600000 =
      (.ok 1, [("tk", { userId := 1, expiry := 600000 })]) ∧
    (verifyToken (some "Bearer tk") [("tk", { userId := 1, expiry := 600000 })] 600000).1 ≠
      .reject (createResponse (.text "Token expired") 401) := by
  refine ⟨by decide, by decide, by decide⟩

/-- C1 (amended): for a stored token, `verifyToken` returns the stored
user id at any instant up to and including the stored expiry, returns the
`Token expired` rejection at any instant strictly after the expiry and
deletes the entry, and every subsequent call on the same token then
returns the `Invalid token` (not-found) rejection. -/
theorem c1_token_lifecycle (store : TokenStore) (tok : String) (uid e : Int)
    (hget : storeGet store tok = some { userId := uid, expiry := e }) :
    (∀ now, now ≤ e →
      verifyToken (some ("Bearer " ++ tok)) store now = (.ok uid, store)) ∧
    (∀ now, e < now →
      verifyToken (some ("Bearer " ++ tok)) store now =
        (.reject (createResponse (.text "Token expired") 401), storeDelete store tok) ∧
      ∀ now2, verifyToken (some ("Bearer " ++ tok)) (storeDelete store tok) now2 =
        (.reject (createResponse (.text "Invalid token") 401), storeDelete store tok)) := by
  refine ⟨fun now hle => verify_valid store tok uid e now hget (by omega),
    fun now hlt => ⟨verify_expired store tok uid e now hget hlt,
      fun now2 => verify_notFound _ tok now2 (storeGet_delete_self store tok)⟩⟩

/-- Witness for `c1_token_lifecycle` at a concrete one-entry store. -/
theorem c1_token_lifecycle_witness :
    verifyToken (some ("Bearer " ++ "t")) [("t", { userId := 5, expiry := 100 })] 40 =
      (.ok 5, [("t", { userId := 5, expiry := 100 })]) ∧
    verifyToken (some ("Bearer " ++ "t")) [("t", { userId := 5, expiry := 100 })] 101 =
      (.reject (createResponse (.text "Token expired") 401),
        storeDelete [("t", { userId := 5, expiry := 100 })] "t") ∧
    verifyToken (some ("Bearer " ++ "t"))
        (storeDelete [("t", { userId := 5, expiry := 100 })] "t") 102 =
      (.reject (createResponse (.text "Invalid token") 401),
        storeDelete [("t", { userId := 5, expiry := 100 })] "t") := by
  refine ⟨(c1_token_lifecycle _ "t" 5 100 (by decide)).1 40 (by decide),
    ((c1_token_lifecycle _ "t" 5 100 (by decide)).2 101 (by decide)).1,
    ((c1_token_lifecycle _ "t" 5 100 (by decide)).2 101 (by decide)).2 102⟩

/-- C9: resolving a token whose stored expiry is strictly in the future
returns its user id and leaves the session registry exactly unchanged. -/
theorem c9_resolve_frame (store : TokenStore) (tok : String) (uid e now : Int)
    (hget : storeGet store tok = some { userId := uid, expiry := e })
    (hfut : now < e) :
    verifyToken (some ("Bearer " ++ tok)) store now = (.ok uid, store) := by
  exact verify_valid store tok uid e now hget (by omega)

/-- Witness for `c9_resolve_frame`. -/
theorem c9_resolve_frame_witness :
    verifyToken (some ("Bearer " ++ "t")) [("t", { userId := 7, expiry := 50 })] 49 =
      (.ok 7, [("t", { userId := 7, expiry := 50 })]) :=
  c9_resolve_frame _ "t" 7 50 49 (by decide) (by decide)

/-- C4 counterexample: an entry whose expiry equals the sweep instant
survives the sweep, so `no entry with expiry <= now remains` is false at
`expiry = now = 100`. -/
theorem c4_counterexample :
    sweep [("t", { userId := 1, expiry := 100 })] 100 =
      [("t", { userId := 1, expiry := 100 })] ∧
    ("t", ({ userId := 1, expiry := 100 } : TokenData)) ∈
      sweep [("t", { userId := 1, expiry := 100 })] 100 ∧
    ({ userId := 1, expiry := 100 } : TokenData).expiry ≤ 100 := by
  refine ⟨by decide, by decide, by decide⟩

/-- C4 (amended): after one sweep pass at instant `now`, no entry with
expiry strictly below `now` remains, every entry with expiry at or above
`now` is kept unchanged, and the surviving entries are a sublist of the
original registry (nothing is added or reordered). -/
theorem c4_sweep (s : TokenStore) (now : Int) :
    (∀ p : String × TokenData, p ∈ sweep s now → now ≤ p.2.expiry) ∧
    (∀ p : String × TokenData, p ∈ s → now ≤ p.2.expiry → p ∈ sweep s now) ∧
    List.Sublist (sweep s now) s := by
  refine ⟨?_, ?_, List.filter_sublist s⟩
  · intro p hp
    have h := List.of_mem_filter hp
    simp only [Bool.not_eq_true', decide_eq_false_iff_not, not_lt] at h
    exact h
  · intro p hp hle
    refine List.mem_filter.2 ⟨hp, ?_⟩
    simp only [Bool.not_eq_true', decide_eq_false_iff_not, not_lt]
    exact hle

/-- `verifyToken` without an `Authorization` header: 401 rejection. -/
theorem verify_missingHeader (store : TokenStore) (now : Int) :
    verifyToken none store now =
      (.reject (createResponse (.text "Missing or invalid Authorization header") 401), store) :=
  rfl

/-- `verifyToken` with a header not using the `Bearer ` scheme: 401
rejection, store untouched. -/
theorem verify_badScheme (h : String) (store : TokenStore) (now : Int)
    (hs : strStartsWith h "Bearer " = false) :
    verifyToken (some h) store now =
      (.reject (createResponse (.text "Missing or invalid Authorization header") 401), store) := by
  simp [verifyToken, hs]

/-- On a protected route (`POST /users` or `POST /messages`), a
`verifyToken` rejection is returned as-is by the dispatcher, with the
store `verifyToken` left behind and no external-store call. -/
theorem handler_protected_reject (req : Request) (store : TokenStore) (now : Int)
    (db : Db) (tk : String) (resp : Response) (store2 : TokenStore)
    (hm : req.method = "POST") (hp : req.path = "/users" ∨ req.path = "/messages")
    (hv : verifyToken req.authHeader store now = (.reject resp, store2)) :
    handler req store now db tk = { response := resp, store := store2, effect := .none } := by
  rcases hp with hp | hp <;> simp [handler, hm, hp, hv]

/-- On `POST /messages` with a verified caller and a truthy `body` field,
the dispatcher inserts the defaulted row built from the spread
`{ ...body, user_id: userId }`. -/
theorem handler_postMessages_ok (req : Request) (store : TokenStore) (now : Int)
    (db : Db) (tk : String) (uid : Int) (store2 : TokenStore) (b : JsonBody)
    (hm : req.method = "POST") (hp : req.path = "/messages")
    (hv : verifyToken req.authHeader store now = (.ok uid, store2))
    (hb : req.jsonBody = some b) (hbody : falsyStr b.body = false) :
    handler req store now db tk =
      (match db.insertMessage (addMessage (spreadInput b uid)) with
       | .ok _ =>
         { response := createResponse (.jsonMessage (addMessage (spreadInput b uid))) 201,
           store := store2,
           effect := .insertMessage (addMessage (spreadInput b uid)) }
       | .error m =>
         { response := createResponse (.text (errOr m "Server error")) 500,
           store := store2,
           effect := .insertMessage (addMessage (spreadInput b uid)) }) := by
  simp [handler, hm, hp, hv, hb, hbody]

/-- Witness for `c4_sweep` on a two-entry registry. -/
theorem c4_sweep_witness :
    ((100:Int) ≤ (("t", ({ userId := 1, expiry := 150 } : TokenData)).2.expiry)) ∧
    ("t", ({ userId := 1, expiry := 150 } : TokenData)) ∈
      sweep [("old", { userId := 2, expiry := 10 }), ("t", { userId := 1, expiry := 150 })] 100 := by
  refine ⟨(c4_sweep [("old", { userId := 2, expiry := 10 }),
      ("t", { userId := 1, expiry := 150 })] 100).1 _ (by decide),
    (c4_sweep [("old", { userId := 2, expiry := 10 }),
      ("t", { userId := 1, expiry := 150 })] 100).2.1 _ (by decide) (by decide)⟩

/-- C2: on every protected route (`POST /users`, `POST /messages`), a
request with no `Authorization` header or a non-`Bearer ` scheme gets
status 401; a `Bearer` token with no registry entry gets 401; a `Bearer`
token whose expiry is past gets 401 and its registry entry is removed. -/
theorem c2_auth_gate (store : TokenStore) (now : Int) (db : Db) (tk : String) :
    (∀ req : Request, req.method = "POST" →
      (req.path = "/users" ∨ req.path = "/messages") →
      (req.authHeader = none ∨
        ∃ h, req.authHeader = some h ∧ strStartsWith h "Bearer " = false) →
      (handler req store now db tk).response.status = 401) ∧
    (∀ (req : Request) (tok : String), req.method = "POST" →
      (req.path = "/users" ∨ req.path = "/messages") →
      req.authHeader = some ("Bearer " ++ tok) → storeGet store tok = none →
      (handler req store now db tk).response.status = 401) ∧
    (∀ (req : Request) (tok : String) (uid e : Int), req.method = "POST" →
      (req.path = "/users" ∨ req.path = "/messages") →
      req.authHeader = some ("Bearer " ++ tok) →
      storeGet store tok = some { userId := uid, expiry := e } → e < now →
      (handler req store now db tk).response.status = 401 ∧
      storeGet (handler req store now db tk).store tok = none) := by
  refine ⟨?_, ?_, ?_⟩
  · rintro req hm hp (hnone | ⟨h, hsome, hbad⟩)
    · rw [handler_protected_reject req store now db tk _ _ hm hp
        (by rw [hnone]; exact verify_missingHeader store now)]
      rfl
    · rw [handler_protected_reject req store now db tk _ _ hm hp
        (by rw [hsome]; exact verify_badScheme h store now hbad)]
      rfl
  · intro req tok hm hp hh hget
    rw [handler_protected_reject req store now db tk _ _ hm hp
      (by rw [hh]; exact verify_notFound store tok now hget)]
    rfl
  · intro req tok uid e hm hp hh hget hexp
    rw [handler_protected_reject req store now db tk _ _ hm hp
      (by rw [hh]; exact verify_expired store tok uid e now hget hexp)]
    exact ⟨rfl, storeGet_delete_self store tok⟩

/-- Witness for `c2_auth_gate`: the three rejection cases at concrete
requests against a one-entry registry. -/
theorem c2_auth_gate_witness :
    (handler (mkReq "POST" "/users" none none)
      [("t", { userId := 1, expiry := 100 })] 101 dbStub "f").response.status = 401 ∧
    (handler (mkReq "POST" "/messages" (some ("Bearer " ++ "x")) none)
      [("t", { userId := 1, expiry := 100 })] 101 dbStub "f").response.status = 401 ∧
    (handler (mkReq "POST" "/messages" (some ("Bearer " ++ "t")) none)
      [("t", { userId := 1, expiry := 100 })] 101 dbStub "f").response.status = 401 ∧
    storeGet (handler (mkReq "POST" "/messages" (some ("Bearer " ++ "t")) none)
      [("t", { userId := 1, expiry := 100 })] 101 dbStub "f").store "t" = none := by
  refine ⟨(c2_auth_gate [("t", { userId := 1, expiry := 100 })] 101 dbStub "f").1 _
      rfl (Or.inl rfl) (Or.inl rfl),
    (c2_auth_gate [("t", { userId := 1, expiry := 100 })] 101 dbStub "f").2.1 _ "x"
      rfl (Or.inr rfl) rfl (by decide),
    ((c2_auth_gate [("t", { userId := 1, expiry := 100 })] 101 dbStub "f").2.2 _ "t" 1 100
      rfl (Or.inr rfl) rfl (by decide) (by decide)).1,
    ((c2_auth_gate [("t", { userId := 1, expiry := 100 })] 101 dbStub "f").2.2 _ "t" 1 100
      rfl (Or.inr rfl) rfl (by decide) (by decide)).2⟩

/-- Projection fact: `addMessage` passes `user_id` through unchanged. -/
theorem addMessage_user_id (m : MessageInput) : (addMessage m).user_id = m.user_id :=
  rfl

/-- C3: on an authenticated `POST /messages`, the row handed to the
store's insert is built from the spread with `user_id` forced to the
verified caller's id; whatever `user_id` the body carried never reaches
the store. -/
theorem c3_ownership (req : Request) (store : TokenStore) (now : Int) (db : Db)
    (tk : String) (uid : Int) (store2 : TokenStore) (b : JsonBody)
    (hm : req.method = "POST") (hp : req.path = "/messages")
    (hv : verifyToken req.authHeader store now = (.ok uid, store2))
    (hb : req.jsonBody = some b) (hbody : falsyStr b.body = false) :
    (handler req store now db tk).effect =
      .insertMessage (addMessage (spreadInput b uid)) ∧
    ∀ row, (handler req store now db tk).effect = .insertMessage row →
      row.user_id = uid := by
  have h1 : (handler req store now db tk).effect =
      .insertMessage (addMessage (spreadInput b uid)) := by
    rw [handler_postMessages_ok req store now db tk uid store2 b hm hp hv hb hbody]
    cases db.insertMessage (addMessage (spreadInput b uid)) <;> rfl
  refine ⟨h1, fun row hrow => ?_⟩
  rw [h1] at hrow
  have heq : addMessage (spreadInput b uid) = row := by
    simpa using hrow
  rw [← heq]
  rfl

/-- Witness for `c3_ownership`: a body claiming `user_id = 42` is stored
under the verified caller's id 9. -/
theorem c3_ownership_witness :
    (handler (mkReq "POST" "/messages" (some ("Bearer " ++ "t"))
        (some { emptyBody with body := some "hi", user_id := some 42 }))
      [("t", { userId := 9, expiry := 100 })] 50 dbStub "f").effect =
      .insertMessage (addMessage
        (spreadInput { emptyBody with body := some "hi", user_id := some 42 } 9)) ∧
    ∀ row, (handler (mkReq "POST" "/messages" (some ("Bearer " ++ "t"))
        (some { emptyBody with body := some "hi", user_id := some 42 }))
      [("t", { userId := 9, expiry := 100 })] 50 dbStub "f").effect =
        .insertMessage row → row.user_id = 9 :=
  c3_ownership
    (mkReq "POST" "/messages" (some ("Bearer " ++ "t"))
      (some { emptyBody with body := some "hi", user_id := some 42 }))
    [("t", { userId := 9, expiry := 100 })] 50 dbStub "f" 9
    [("t", { userId := 9, expiry := 100 })]
    { emptyBody with body := some "hi", user_id := some 42 }
    rfl rfl (by decide) rfl (by decide)

/-- C7: on an authenticated `POST /messages` accepted with 201, an
omitted `channel` is stored as the sentinel `general`, omitted
`attachments` as the empty list, and omitted `in_reply_to` as null. -/
theorem c7_defaults (req : Request) (store : TokenStore) (now : Int) (db : Db)
    (tk : String) (uid : Int) (store2 : TokenStore) (b : JsonBody)
    (hm : req.method = "POST") (hp : req.path = "/messages")
    (hv : verifyToken req.authHeader store now = (.ok uid, store2))
    (hb : req.jsonBody = some b) (hbody : falsyStr b.body = false)
    (hdb : ∀ r, db.insertMessage r = .ok ()) :
    (handler req store now db tk).response.status = 201 ∧
    (handler req store now db tk).effect =
      .insertMessage (addMessage (spreadInput b uid)) ∧
    (b.channel = none →
      (addMessage (spreadInput b uid)).channel = "general") ∧
    (b.attachments = none →
      (addMessage (spreadInput b uid)).attachments = []) ∧
    (b.in_reply_to = none →
      (addMessage (spreadInput b uid)).in_reply_to = none) := by
  rw [handler_postMessages_ok req store now db tk uid store2 b hm hp hv hb hbody, hdb]
  refine ⟨rfl, rfl, fun h => ?_, fun h => ?_, fun h => ?_⟩ <;>
    simp [addMessage, spreadInput, h]

/-- Witness for `c7_defaults`: a body with only `body` present. -/
theorem c7_defaults_witness :
    (handler (mkReq "POST" "/messages" (some ("Bearer " ++ "t"))
        (some { emptyBody with body := some "hi" }))
      [("t", { userId := 9, expiry := 100 })] 50 dbStub "f").response.status = 201 ∧
    (addMessage (spreadInput { emptyBody with body := some "hi" } 9)).channel = "general" ∧
    (addMessage (spreadInput { emptyBody with body := some "hi" } 9)).attachments = [] ∧
    (addMessage (spreadInput { emptyBody with body := some "hi" } 9)).in_reply_to = none := by
  have h := c7_defaults
    (mkReq "POST" "/messages" (some ("Bearer " ++ "t"))
      (some { emptyBody with body := some "hi" }))
    [("t", { userId := 9, expiry := 100 })] 50 dbStub "f" 9
    [("t", { userId := 9, expiry := 100 })]
    { emptyBody with body := some "hi" }
    rfl rfl (by decide) rfl (by decide) (fun _ => rfl)
  exact ⟨h.1, h.2.2.1 rfl, h.2.2.2.1 rfl, h.2.2.2.2 rfl⟩

/-- Every rejection `verifyToken` produces goes through `createResponse`,
so it carries the permissive cross-origin header. -/
theorem verifyToken_reject_cors (ah : Option String) (store : TokenStore) (now : Int)
    (resp : Response) (store2 : TokenStore)
    (h : verifyToken ah store now = (.reject resp, store2)) :
    resp.allowOrigin = some "*" := by
  cases ah with
  | none => cases h; rfl
  | some s =>
    unfold verifyToken at h
    dsimp only at h
    split at h
    · split at h
      · cases h; rfl
      · split at h
        · cases h
          rfl
        · cases h
    · cases h; rfl

/-- C6: every response the handler produces, on every route and every
external-store outcome, carries `Access-Control-Allow-Origin: *`. -/
theorem c6_cors (req : Request) (store : TokenStore) (now : Int) (db : Db)
    (tk : String) :
    (handler req store now db tk).response.allowOrigin = some "*" := by
  unfold handler
  dsimp only
  repeat' split
  all_goals try rfl
  all_goals (rename_i heq; exact verifyToken_reject_cors _ _ _ _ _ heq)

/-- C5: a request whose method+path matches none of the dispatch table's
guards falls through to the 404 `Not found` response. -/
theorem c5_not_found (req : Request) (store : TokenStore) (now : Int) (db : Db)
    (tk : String) (h : routeMatches req.method req.path = false) :
    (handler req store now db tk).response = createResponse (.text "Not found") 404 := by
  simp only [routeMatches, Bool.or_eq_false_iff, Bool.and_eq_false_iff,
    decide_eq_false_iff_not] at h
  obtain ⟨⟨⟨⟨⟨⟨⟨⟨h1, h2⟩, h3⟩, h4⟩, h5⟩, h6⟩, h7⟩, h8⟩, h9⟩ := h
  have mk : ∀ {A B : Prop}, ¬A ∨ ¬B → ¬(A ∧ B) :=
    fun hor hc => hor.elim (fun hn => hn hc.1) (fun hn => hn hc.2)
  have g2 := mk h2
  have g3 := mk h3
  have g4 := mk h4
  have g5 := mk h5
  have g6 : ¬(req.method = "GET" ∧ strStartsWith req.path "/messages/channel/" = true) := by
    rintro ⟨ha, hb⟩
    rcases h6 with h | h
    · exact h ha
    · rw [h] at hb
      exact Bool.false_ne_true hb
  have g7 := mk h7
  have g8 := mk h8
  have g9 := mk h9
  simp only [handler]
  rw [if_neg h1, if_neg g2, if_neg g3, if_neg g4, if_neg g5, if_neg g6, if_neg g7,
    if_neg g8, if_neg g9]

/-- Witness for `c5_not_found` at `DELETE /x`. -/
theorem c5_not_found_witness :
    (handler (mkReq "DELETE" "/x" none none) [] 0 dbStub "f").response =
      createResponse (.text "Not found") 404 :=
  c5_not_found (mkReq "DELETE" "/x" none none) [] 0 dbStub "f" (by decide)

/-- C8 counterexample: `GET /messages/channel/a/b` (an extra trailing
segment) is not a routing miss: the prefix-matched channel route handles
it as channel `a` with status 200, where the claim demands a 404. -/
theorem c8_counterexample :
    (handler (mkReq "GET" "/messages/channel/a/b" none none) [] 0 dbStub "f").response.status
      = 200 ∧
    (handler (mkReq "GET" "/messages/channel/a/b" none none) [] 0 dbStub "f").effect =
      .channelQuery "a" ∧
    (handler (mkReq "GET" "/messages/channel/a/b" none none) [] 0 dbStub "f").response ≠
      createResponse (.text "Not found") 404 := by
  refine ⟨by decide, by decide, by decide⟩

/-- C8 (amended): the channel route is prefix-matched, not
exact-segment: every `GET` whose path starts with `/messages/channel/`
and whose third slash-separated segment is non-empty is handled by the
channel route, querying the store for that (decoded) segment and never
falling through to the 404 `Not found` response; extra trailing segments
are ignored rather than rejected. -/
theorem c8_channel_route (req : Request) (store : TokenStore) (now : Int) (db : Db)
    (tk : String) (c : String)
    (hm : req.method = "GET")
    (hpre : strStartsWith req.path "/messages/channel/" = true)
    (hc : (jsSplit req.path '/').getD 3 "" = c) (hne : c ≠ "") :
    (handler req store now db tk).effect = .channelQuery (db.decodeURIComponent c) ∧
    (handler req store now db tk).response ≠ createResponse (.text "Not found") 404 := by
  have h1 : req.path ≠ "/users" := by
    intro hth
    rw [hth] at hpre
    exact absurd hpre (by decide)
  have h2 : req.path ≠ "/messages" := by
    intro hth
    rw [hth] at hpre
    exact absurd hpre (by decide)
  simp only [handler, hm, hpre, h1, h2, hc, hne]
  cases hq : db.getMessagesByChannel (db.decodeURIComponent c) <;>
    simp [hq, createResponse]

/-- Witness for `c8_channel_route` at `GET /messages/channel/xyz`. -/
theorem c8_channel_route_witness :
    (handler (mkReq "GET" "/messages/channel/xyz" none none) [] 0 dbStub "f").effect =
      .channelQuery (dbStub.decodeURIComponent "xyz") ∧
    (handler (mkReq "GET" "/messages/channel/xyz" none none) [] 0 dbStub "f").response ≠
      createResponse (.text "Not found") 404 :=
  c8_channel_route (mkReq "GET" "/messages/channel/xyz" none none) [] 0 dbStub "f" "xyz"
    rfl (by decide) (by decide) (by decide)

/-- C10: the `!x` required-field checks treat an empty string exactly
like an absent field: empty `name`/`password` on login, empty
`name`/`profile_picture_url` on user update, and empty `body` on message
creation all yield the 400 missing-field response, and a present-but-empty
`channel` falls back to the `general` default in the stored row. -/
theorem c10_empty_strings (store : TokenStore) (now : Int) (db : Db) (tk : String) :
    (∀ (req : Request) (b : JsonBody), req.method = "POST" → req.path = "/auth/login" →
      req.jsonBody = some b → (b.name = some "" ∨ b.password = some "") →
      (handler req store now db tk).response =
        createResponse (.text "Missing name or password") 400) ∧
    (∀ (req : Request) (b : JsonBody) (uid : Int) (store2 : TokenStore),
      req.method = "POST" → req.path = "/users" →
      verifyToken req.authHeader store now = (.ok uid, store2) →
      req.jsonBody = some b → (b.name = some "" ∨ b.profile_picture_url = some "") →
      (handler req store now db tk).response =
        createResponse (.text "Missing name or profile_picture_url") 400) ∧
    (∀ (req : Request) (b : JsonBody) (uid : Int) (store2 : TokenStore),
      req.method = "POST" → req.path = "/messages" →
      verifyToken req.authHeader store now = (.ok uid, store2) →
      req.jsonBody = some b → b.body = some "" →
      (handler req store now db tk).response =
        createResponse (.text "Missing body") 400) ∧
    (∀ (req : Request) (b : JsonBody) (uid : Int) (store2 : TokenStore) (s : String),
      req.method = "POST" → req.path = "/messages" →
      verifyToken req.authHeader store now = (.ok uid, store2) →
      req.jsonBody = some b → b.body = some s → s ≠ "" → b.channel = some "" →
      (handler req store now db tk).effect =
        .insertMessage (addMessage (spreadInput b uid)) ∧
      (addMessage (spreadInput b uid)).channel = "general") := by
  refine ⟨?_, ?_, ?_, ?_⟩
  · rintro req b hm hp hb (he | he) <;> simp [handler, hm, hp, hb, falsyStr, he]
  · rintro req b uid store2 hm hp hv hb (he | he) <;>
      simp [handler, hm, hp, hv, hb, falsyStr, he]
  · intro req b uid store2 hm hp hv hb he
    simp [handler, hm, hp, hv, hb, falsyStr, he]
  · intro req b uid store2 s hm hp hv hb he hs hchan
    have hbody : falsyStr b.body = false := by simp [falsyStr, he, hs]
    constructor
    · rw [handler_postMessages_ok req store now db tk uid store2 b hm hp hv hb hbody]
      cases db.insertMessage (addMessage (spreadInput b uid)) <;> rfl
    · simp [addMessage, spreadInput, hchan]

/-- Witness for `c10_empty_strings`: the four empty-string cases at
concrete requests, with a valid session for the authenticated ones. -/
theorem c10_empty_strings_witness :
    (handler (mkReq "POST" "/auth/login" none
        (some { emptyBody with name := some "", password := some "pw" }))
      [("t", { userId := 1, expiry := 100 })] 50 dbStub "f").response =
      createResponse (.text "Missing name or password") 400 ∧
    (handler (mkReq "POST" "/users" (some ("Bearer " ++ "t"))
        (some { emptyBody with name := some "n", profile_picture_url := some "" }))
      [("t", { userId := 1, expiry := 100 })] 50 dbStub "f").response =
      createResponse (.text "Missing name or profile_picture_url") 400 ∧
    (handler (mkReq "POST" "/messages" (some ("Bearer " ++ "t"))
        (some { emptyBody with body := some "" }))
      [("t", { userId := 1, expiry := 100 })] 50 dbStub "f").response =
      createResponse (.text "Missing body") 400 ∧
    (addMessage (spreadInput { emptyBody with body := some "hi", channel := some "" } 1)).channel
      = "general" := by
  refine ⟨?_, ?_, ?_, ?_⟩
  · exact (c10_empty_strings [("t", { userId := 1, expiry := 100 })] 50 dbStub "f").1
      _ _ rfl rfl rfl (Or.inl rfl)
  · exact (c10_empty_strings [("t", { userId := 1, expiry := 100 })] 50 dbStub "f").2.1
      _ _ 1 [("t", { userId := 1, expiry := 100 })] rfl rfl (by decide) rfl (Or.inr rfl)
  · exact (c10_empty_strings [("t", { userId := 1, expiry := 100 })] 50 dbStub "f").2.2.1
      _ _ 1 [("t", { userId := 1, expiry := 100 })] rfl rfl (by decide) rfl rfl
  · exact ((c10_empty_strings [("t", { userId := 1, expiry := 100 })] 50 dbStub "f").2.2.2
      (mkReq "POST" "/messages" (some ("Bearer " ++ "t"))
        (some { emptyBody with body := some "hi", channel := some "" }))
      { emptyBody with body := some "hi", channel := some "" } 1
      [("t", { userId := 1, expiry := 100 })] "hi"
      rfl rfl (by decide) rfl rfl (by decide) rfl).2
